import Mathlib

/-!
Shallow embedding of the env_init library (src/lib.rs): a typed accessor
over a caller-supplied retrieval closure, with owned and leaking variants,
and the explicitly initialized environment container over a once-cell.

Rust strings are Lean String, Result is Except, Option is Option.
Panicking is modelled by the PanicOr outcome type. Leaking a value to a
static reference is modelled by an explicit heap (a list of leaked
values); a static reference is an index into that heap. Closure
invocations of FnOnce defaults and factories are counted by threading a
counter (CountM): a thunk increments the counter each time it is run.
-/

section Defs

variable {G P T α : Type}

deriving instance DecidableEq for Except

/-- Custom error type of src/lib.rs: a GetterError (error returned by the
closure) or ParseError (error returned by FromStr). -/
inductive EnvError (G P : Type) where
  | GetterError : G → EnvError G P
  | ParseError : P → EnvError G P
deriving DecidableEq, Repr

/-- Struct that holds a closure to get environment variables
(EnvGetter of src/lib.rs). The closure maps a name to a string value or a
retrieval error. -/
structure EnvGetter (G : Type) where
  getter : String → Except G String

/-- EnvGetter::new of src/lib.rs. -/
def EnvGetter.new (getter : String → Except G String) : EnvGetter G :=
  ⟨getter⟩

/-- Outcome of a Rust call that may panic: a returned value or a panic
with its message. -/
inductive PanicOr (α : Type) where
  | ret : α → PanicOr α
  | panicked : String → PanicOr α
deriving DecidableEq, Repr

/-- A computation threading a closure-invocation counter: running it in
state n yields a value and the updated count. -/
abbrev CountM (α : Type) : Type :=
  Nat → α × Nat

/-- Instrument a pure closure as a counted thunk: each run increments the
invocation counter by one. -/
def mkThunk (f : Unit → α) : CountM α :=
  fun n => (f (), n + 1)

/-- EnvGetter::owned_var_try of src/lib.rs: invoke the getter, wrapping
its error as GetterError, then parse the string, wrapping the parse error
as ParseError. The FromStr instance of the target type is passed
explicitly as the parse function. -/
def EnvGetter.owned_var_try (g : EnvGetter G) (parse : String → Except P T)
    (name : String) : Except (EnvError G P) T := do
  let var ← (g.getter name).mapError EnvError.GetterError
  (parse var).mapError EnvError.ParseError

/-- EnvGetter::owned_var of src/lib.rs: unwrap owned_var_try, panicking
on any error with a message naming the variable. -/
def EnvGetter.owned_var (g : EnvGetter G) (parse : String → Except P T)
    (name : String) : PanicOr T :=
  match g.owned_var_try parse name with
  | .ok v => .ret v
  | .error _ =>
      .panicked ("Couldn't find or parse env variable " ++ name ++ " for given type")

/-- EnvGetter::owned_var_or of src/lib.rs: unwrap_or over owned_var_try. -/
def EnvGetter.owned_var_or (g : EnvGetter G) (parse : String → Except P T)
    (name : String) (d : T) : T :=
  match g.owned_var_try parse name with
  | .ok v => v
  | .error _ => d

/-- EnvGetter::owned_var_or_else of src/lib.rs: unwrap_or_else over
owned_var_try; the FnOnce default is a counted thunk and is run only in
the error branch. -/
def EnvGetter.owned_var_or_else (g : EnvGetter G) (parse : String → Except P T)
    (name : String) (defaultFn : CountM T) : CountM T :=
  fun n =>
    match g.owned_var_try parse name with
    | .ok v => (v, n)
    | .error _ => defaultFn n

/-- EnvGetter::leak of src/lib.rs (Box::leak of a fresh Box): append the
value to the heap of leaked values and return the static reference to it,
modelled as its index. -/
def EnvGetter.leak (heap : List T) (v : T) : Nat × List T :=
  (heap.length, heap ++ [v])

/-- EnvGetter::var_try of src/lib.rs: owned_var_try mapped through leak.
Only the Ok branch leaks; the error branch leaves the heap unchanged. -/
def EnvGetter.var_try (g : EnvGetter G) (parse : String → Except P T)
    (name : String) (heap : List T) : Except (EnvError G P) Nat × List T :=
  match g.owned_var_try parse name with
  | .ok v =>
      let (r, h) := EnvGetter.leak heap v
      (.ok r, h)
  | .error e => (.error e, heap)

/-- EnvGetter::var of src/lib.rs: unwrap var_try, panicking on any error
with a message naming the variable. -/
def EnvGetter.var (g : EnvGetter G) (parse : String → Except P T)
    (name : String) (heap : List T) : PanicOr (Nat × List T) :=
  match g.var_try parse name heap with
  | (.ok r, h) => .ret (r, h)
  | (.error _, _) =>
      .panicked ("Couldn't find or parse env variable " ++ name ++ " for given type")

/-- EnvGetter::var_or of src/lib.rs: unwrap_or of var_try with a default
static reference; nothing extra is leaked on the error path. -/
def EnvGetter.var_or (g : EnvGetter G) (parse : String → Except P T)
    (name : String) (defaultRef : Nat) (heap : List T) : Nat × List T :=
  match g.var_try parse name heap with
  | (.ok r, h) => (r, h)
  | (.error _, h) => (defaultRef, h)

/-- EnvGetter::var_or_else of src/lib.rs: the default FnOnce closure is
run first (as the argument Box::leak(default().into()) is evaluated
before the call), its result leaked, and the leaked reference passed to
var_or. -/
def EnvGetter.var_or_else (g : EnvGetter G) (parse : String → Except P T)
    (name : String) (defaultFn : CountM T) (heap : List T) :
    CountM (Nat × List T) :=
  fun n =>
    let (d, n') := defaultFn n
    let (dref, h) := EnvGetter.leak heap d
    (g.var_or parse name dref h, n')

/-- EnvOnce of src/lib.rs: a wrapper over a OnceLock, modelled as its
optional contents. -/
structure EnvOnce (T : Type) where
  cell : Option T
deriving DecidableEq, Repr

/-- EnvOnce::new of src/lib.rs: the empty cell. -/
def EnvOnce.new : EnvOnce T :=
  ⟨none⟩

/-- EnvOnce::init of src/lib.rs: evaluate T::new() (the factory), then
OnceLock::set it, panicking when the cell is already full. The factory is
evaluated before the store is attempted, as in the Rust argument
position. -/
def EnvOnce.init (factory : Unit → T) (e : EnvOnce T) : PanicOr (EnvOnce T) :=
  let v := factory ()
  match e.cell with
  | none => .ret ⟨some v⟩
  | some _ => .panicked "Failed to initialize environment"

/-- EnvOnce::init of src/lib.rs with the factory instrumented as a
counted thunk, so factory executions are observable: the factory runs
(incrementing the counter) before the store is attempted, on every call. -/
def EnvOnce.initCounted (factory : CountM T) (e : EnvOnce T) :
    CountM (PanicOr (EnvOnce T)) :=
  fun n =>
    let (v, n') := factory n
    match e.cell with
    | none => (.ret ⟨some v⟩, n')
    | some _ => (.panicked "Failed to initialize environment", n')

/-- Deref for EnvOnce of src/lib.rs: OnceLock::get, panicking when the
cell is still empty. -/
def EnvOnce.deref (e : EnvOnce T) : PanicOr T :=
  match e.cell with
  | some v => .ret v
  | none => .panicked "Environment not initialized"

/-- The retrieval closure of the example scenario of the spec and of
src/tests.rs: INT_OK yields the string 42, INT_BAD yields a non-numeric
string, anything else (for example MISSING) is a retrieval error. -/
def mockGetter : String → Except Unit String := fun k =>
  if k = "INT_OK" then .ok "42"
  else if k = "INT_BAD" then .ok "not_an_int"
  else .error ()

/-- Accumulate decimal digits; fails on any non-digit character. -/
def parseDigits : List Char → Nat → Option Nat
  | [], acc => some acc
  | c :: cs, acc =>
      if c.isDigit then parseDigits cs (acc * 10 + (c.toNat - 48)) else none

/-- Parse a signed run of decimal digits, requiring at least one digit. -/
def parseSigned : Int → List Char → Except Unit Int
  | _, [] => .error ()
  | sign, ds =>
      match parseDigits ds 0 with
      | some m => .ok (sign * m)
      | none => .error ()

/-- A decimal integer parse used as the FromStr instance of i32 in the
example scenario: an optional sign and digits, within the i32 range. -/
def parseI32 (s : String) : Except Unit Int :=
  let ranged : Int → Except Unit Int := fun n =>
    if -(2 ^ 31) ≤ n ∧ n < 2 ^ 31 then .ok n else .error ()
  match s.data with
  | '-' :: rest => (parseSigned (-1) rest).bind ranged
  | '+' :: rest => (parseSigned 1 rest).bind ranged
  | ds => (parseSigned 1 ds).bind ranged

end Defs

section Lemmas

variable {G P T : Type}

/-- Unfolding of owned_var_try into the two-step case split: first the
getter, then the parse. -/
theorem owned_var_try_eq (g : EnvGetter G) (parse : String → Except P T)
    (name : String) :
    g.owned_var_try parse name =
      match g.getter name with
      | .error e => .error (.GetterError e)
      | .ok s =>
          match parse s with
          | .error p => .error (.ParseError p)
          | .ok v => .ok v := by
  unfold EnvGetter.owned_var_try
  cases hg : g.getter name with
  | error e => simp [Except.mapError, Bind.bind, Except.bind]
  | ok s =>
      cases hp : parse s <;>
        simp [Except.mapError, Bind.bind, Except.bind, hp]

end Lemmas

section Claims

variable {G P T : Type}

/-- C1: for every name for which the retriever returns a string that
parses successfully as T, owned_var_try returns Ok of exactly that parsed
value. -/
theorem c1_owned_var_try_parses (g : EnvGetter G) (parse : String → Except P T)
    (name s : String) (v : T) (hg : g.getter name = .ok s)
    (hp : parse s = .ok v) :
    g.owned_var_try parse name = .ok v := by
  rw [owned_var_try_eq, hg]
  simp [hp]

/-- C1 witness: with the retriever mapping INT_OK to the string 42, the
i32 read of INT_OK is Ok 42. -/
theorem c1_witness :
    mockGetter "INT_OK" = .ok "42" ∧ parseI32 "42" = .ok 42 ∧
      (EnvGetter.new mockGetter).owned_var_try parseI32 "INT_OK" = .ok 42 :=
  ⟨by decide, by decide,
    c1_owned_var_try_parses (EnvGetter.new mockGetter) parseI32 "INT_OK" "42" 42
      (by decide) (by decide)⟩

/-- C2: when the retriever fails with g, owned_var_try returns the
GetterError wrapping exactly g and never a ParseError; when the retriever
succeeds but the parse fails with p, owned_var_try returns the ParseError
wrapping exactly p and never a GetterError. -/
theorem c2_owned_var_try_errors (g : EnvGetter G) (parse : String → Except P T)
    (name : String) :
    (∀ gerr, g.getter name = .error gerr →
        g.owned_var_try parse name = .error (.GetterError gerr) ∧
        ∀ p, g.owned_var_try parse name ≠ .error (.ParseError p)) ∧
    (∀ s perr, g.getter name = .ok s → parse s = .error perr →
        g.owned_var_try parse name = .error (.ParseError perr) ∧
        ∀ q, g.owned_var_try parse name ≠ .error (.GetterError q)) := by
  constructor
  · intro gerr hg
    rw [owned_var_try_eq, hg]
    simp
  · intro s perr hg hp
    rw [owned_var_try_eq, hg]
    simp [hp]

/-- C2 witness: the retriever fails on MISSING and owned_var_try wraps
that as a GetterError; the value of INT_BAD fails to parse and
owned_var_try wraps that as a ParseError. -/
theorem c2_witness :
    mockGetter "MISSING" = .error () ∧
      (EnvGetter.new mockGetter).owned_var_try parseI32 "MISSING" =
        .error (.GetterError ()) ∧
    mockGetter "INT_BAD" = .ok "not_an_int" ∧
      parseI32 "not_an_int" = .error () ∧
      (EnvGetter.new mockGetter).owned_var_try parseI32 "INT_BAD" =
        .error (.ParseError ()) :=
  ⟨by decide,
    ((c2_owned_var_try_errors (EnvGetter.new mockGetter) parseI32 "MISSING").1 ()
      (by decide)).1,
    by decide, by decide,
    ((c2_owned_var_try_errors (EnvGetter.new mockGetter) parseI32 "INT_BAD").2
      "not_an_int" () (by decide) (by decide)).1⟩

/-- C3: var_try agrees with owned_var_try. On Ok v it leaks v and
returns the reference to it, whose dereference in the updated heap is
exactly v; on error it returns the same error union value and the heap is
unchanged (nothing leaked). -/
theorem c3_var_try_agrees (g : EnvGetter G) (parse : String → Except P T)
    (name : String) (heap : List T) :
    (∀ v, g.owned_var_try parse name = .ok v →
        g.var_try parse name heap = (.ok heap.length, heap ++ [v]) ∧
        (heap ++ [v])[heap.length]? = some v) ∧
    (∀ e, g.owned_var_try parse name = .error e →
        g.var_try parse name heap = (.error e, heap)) := by
  constructor
  · intro v hv
    constructor
    · simp [EnvGetter.var_try, hv, EnvGetter.leak]
    · simp
  · intro e he
    simp [EnvGetter.var_try, he]

/-- C3 witness: for INT_OK the leaked reference dereferences to 42 on an
initially empty heap, and for MISSING the error is returned with the heap
unchanged. -/
theorem c3_witness :
    ((EnvGetter.new mockGetter).owned_var_try parseI32 "INT_OK" = .ok 42 ∧
      (EnvGetter.new mockGetter).var_try parseI32 "INT_OK" [] = (.ok 0, [42]) ∧
      ([] ++ [(42 : Int)])[(0 : Nat)]? = some 42) ∧
    ((EnvGetter.new mockGetter).owned_var_try parseI32 "MISSING" =
        .error (.GetterError ()) ∧
      (EnvGetter.new mockGetter).var_try parseI32 "MISSING" [] =
        (.error (.GetterError ()), [])) :=
  ⟨⟨by decide,
    by
      have h := (c3_var_try_agrees (EnvGetter.new mockGetter) parseI32 "INT_OK" []).1
        42 (by decide)
      simpa using h.1,
    by decide⟩,
   ⟨by decide,
    (c3_var_try_agrees (EnvGetter.new mockGetter) parseI32 "MISSING" []).2
      (.GetterError ()) (by decide)⟩⟩

/-- C4 counterexample: with the retriever mapping INT_OK to the string 42
and the default also 42, owned_var_or returns the default value even
though neither retrieval nor parsing fails, so returning the default is
not equivalent to failure. -/
theorem c4_counterexample :
    ¬ ((EnvGetter.new mockGetter).owned_var_or parseI32 "INT_OK" 42 = 42 ↔
        ∃ e, (EnvGetter.new mockGetter).owned_var_try parseI32 "INT_OK" =
          .error e) := by
  intro h
  have h1 : (EnvGetter.new mockGetter).owned_var_or parseI32 "INT_OK" 42 = 42 := by
    decide
  obtain ⟨e, he⟩ := h.mp h1
  have h2 : (EnvGetter.new mockGetter).owned_var_try parseI32 "INT_OK" = .ok 42 := by
    decide
  rw [h2] at he
  exact Except.noConfusion he

/-- C4 amended: owned_var_or returns the default when retrieval or
parsing fails and the parsed value when both succeed (the two may
coincide, so returning the default does not imply failure); repeated
calls with the same arguments give the same result. -/
theorem c4_owned_var_or_amended (g : EnvGetter G) (parse : String → Except P T)
    (name : String) (d : T) :
    (∀ e, g.owned_var_try parse name = .error e →
        g.owned_var_or parse name d = d) ∧
    (∀ v, g.owned_var_try parse name = .ok v →
        g.owned_var_or parse name d = v) ∧
    g.owned_var_or parse name d = g.owned_var_or parse name d := by
  refine ⟨?_, ?_, rfl⟩
  · intro e he
    simp [EnvGetter.owned_var_or, he]
  · intro v hv
    simp [EnvGetter.owned_var_or, hv]

/-- C4 witness: owned_var_or falls back to 123 on MISSING and returns the
parsed 42 on INT_OK. -/
theorem c4_witness :
    ((EnvGetter.new mockGetter).owned_var_try parseI32 "MISSING" =
        .error (.GetterError ()) ∧
      (EnvGetter.new mockGetter).owned_var_or parseI32 "MISSING" 123 = 123) ∧
    ((EnvGetter.new mockGetter).owned_var_try parseI32 "INT_OK" = .ok 42 ∧
      (EnvGetter.new mockGetter).owned_var_or parseI32 "INT_OK" 123 = 42) :=
  ⟨⟨by decide,
    (c4_owned_var_or_amended (EnvGetter.new mockGetter) parseI32 "MISSING" 123).1
      (.GetterError ()) (by decide)⟩,
   ⟨by decide,
    (c4_owned_var_or_amended (EnvGetter.new mockGetter) parseI32 "INT_OK" 123).2.1
      42 (by decide)⟩⟩

/-- C5: owned_var_or_else runs its fallback thunk zero times on success,
returning the parsed value with the invocation counter untouched, and
exactly once on failure, returning the result of the thunk. -/
theorem c5_owned_var_or_else_counts (g : EnvGetter G)
    (parse : String → Except P T) (name : String) (f : Unit → T) (n : Nat) :
    (∀ v, g.owned_var_try parse name = .ok v →
        g.owned_var_or_else parse name (mkThunk f) n = (v, n)) ∧
    (∀ e, g.owned_var_try parse name = .error e →
        g.owned_var_or_else parse name (mkThunk f) n = (f (), n + 1)) := by
  constructor
  · intro v hv
    simp [EnvGetter.owned_var_or_else, hv]
  · intro e he
    simp [EnvGetter.owned_var_or_else, he, mkThunk]

/-- C5 witness: on MISSING the thunk producing 999 runs exactly once and
its value is returned; on INT_OK it is not run at all. -/
theorem c5_witness :
    ((EnvGetter.new mockGetter).owned_var_try parseI32 "MISSING" =
        .error (.GetterError ()) ∧
      (EnvGetter.new mockGetter).owned_var_or_else parseI32 "MISSING"
        (mkThunk fun _ => 999) 0 = (999, 1)) ∧
    ((EnvGetter.new mockGetter).owned_var_try parseI32 "INT_OK" = .ok 42 ∧
      (EnvGetter.new mockGetter).owned_var_or_else parseI32 "INT_OK"
        (mkThunk fun _ => 999) 0 = (42, 0)) :=
  ⟨⟨by decide,
    (c5_owned_var_or_else_counts (EnvGetter.new mockGetter) parseI32 "MISSING"
      (fun _ => 999) 0).2 (.GetterError ()) (by decide)⟩,
   ⟨by decide,
    (c5_owned_var_or_else_counts (EnvGetter.new mockGetter) parseI32 "INT_OK"
      (fun _ => 999) 0).1 42 (by decide)⟩⟩

/-- The variable name occurs inside the panic message of the required
accessors. -/
theorem name_infix_panic_msg (name : String) :
    name.data <:+:
      ("Couldn't find or parse env variable " ++ name ++ " for given type").data :=
  ⟨"Couldn't find or parse env variable ".data, " for given type".data, by
    simp [String.data_append]⟩

/-- C6: when retrieval or parsing fails, owned_var and var end in a panic
whose message contains the variable name; when both succeed they return
the parsed value (for var, a reference to the freshly leaked value). -/
theorem c6_required_accessors_fatal (g : EnvGetter G)
    (parse : String → Except P T) (name : String) (heap : List T) :
    (∀ e, g.owned_var_try parse name = .error e →
        ∃ msg, g.owned_var parse name = .panicked msg ∧
          name.data <:+: msg.data) ∧
    (∀ v, g.owned_var_try parse name = .ok v →
        g.owned_var parse name = .ret v) ∧
    (∀ e, g.owned_var_try parse name = .error e →
        ∃ msg, g.var parse name heap = .panicked msg ∧
          name.data <:+: msg.data) ∧
    (∀ v, g.owned_var_try parse name = .ok v →
        g.var parse name heap = .ret (heap.length, heap ++ [v])) := by
  refine ⟨?_, ?_, ?_, ?_⟩
  · intro e he
    exact ⟨_, by simp [EnvGetter.owned_var, he], name_infix_panic_msg name⟩
  · intro v hv
    simp [EnvGetter.owned_var, hv]
  · intro e he
    exact ⟨_, by simp [EnvGetter.var, EnvGetter.var_try, he],
      name_infix_panic_msg name⟩
  · intro v hv
    simp [EnvGetter.var, EnvGetter.var_try, hv, EnvGetter.leak]

/-- C6 witness: owned_var on INT_BAD (present but unparseable) panics
with a message containing INT_BAD, and on INT_OK returns 42 without
panicking; likewise for var. -/
theorem c6_witness :
    ((EnvGetter.new mockGetter).owned_var_try parseI32 "INT_BAD" =
        .error (.ParseError ()) ∧
      ∃ msg, (EnvGetter.new mockGetter).owned_var parseI32 "INT_BAD" =
          .panicked msg ∧ "INT_BAD".data <:+: msg.data) ∧
    ((EnvGetter.new mockGetter).owned_var_try parseI32 "INT_OK" = .ok 42 ∧
      (EnvGetter.new mockGetter).owned_var parseI32 "INT_OK" = .ret 42 ∧
      (EnvGetter.new mockGetter).var parseI32 "INT_OK" [] = .ret (0, [42])) :=
  ⟨⟨by decide,
    (c6_required_accessors_fatal (EnvGetter.new mockGetter) parseI32 "INT_BAD"
      ([] : List Int)).1 (.ParseError ()) (by decide)⟩,
   ⟨by decide,
    (c6_required_accessors_fatal (EnvGetter.new mockGetter) parseI32 "INT_OK"
      ([] : List Int)).2.1 42 (by decide),
    by
      have h := (c6_required_accessors_fatal (EnvGetter.new mockGetter) parseI32
        "INT_OK" ([] : List Int)).2.2.2 42 (by decide)
      simpa using h⟩⟩

/-- C7 counterexample: after one successful init, the second init does
terminate fatally, but its message is Failed to initialize environment,
which does not contain the words already initialized. -/
theorem c7_counterexample :
    EnvOnce.init (fun _ => (0 : Int)) EnvOnce.new = .ret ⟨some 0⟩ ∧
    EnvOnce.init (fun _ => (0 : Int)) ⟨some 0⟩ =
      .panicked "Failed to initialize environment" ∧
    ¬ ("already initialized".data <:+:
        "Failed to initialize environment".data) :=
  ⟨rfl, rfl, by decide⟩

/-- C7 amended: dereferencing before init panics with a message
containing not initialized; a second init panics, but with the message
Failed to initialize environment, which does not contain already
initialized; after one successful init every dereference returns the one
constructed value. -/
theorem c7_env_once_amended (T : Type) (f : Unit → T) :
    (∃ msg, (EnvOnce.new : EnvOnce T).deref = .panicked msg ∧
        "not initialized".data <:+: msg.data) ∧
    EnvOnce.init f (EnvOnce.new : EnvOnce T) = .ret ⟨some (f ())⟩ ∧
    (∀ e : EnvOnce T, EnvOnce.init f EnvOnce.new = .ret e →
        ∃ msg, EnvOnce.init f e = .panicked msg ∧
          msg = "Failed to initialize environment" ∧
          ¬ ("already initialized".data <:+: msg.data)) ∧
    (∀ e : EnvOnce T, EnvOnce.init f EnvOnce.new = .ret e →
        e.deref = .ret (f ())) := by
  refine ⟨⟨"Environment not initialized", rfl, by decide⟩, rfl, ?_, ?_⟩
  · intro e he
    have h2 : e = ⟨some (f ())⟩ := by
      have := (by simpa [EnvOnce.init, EnvOnce.new] using he :
        (⟨some (f ())⟩ : EnvOnce T) = e)
      exact this.symm
    subst h2
    exact ⟨"Failed to initialize environment", rfl, rfl, by decide⟩
  · intro e he
    have h2 : e = ⟨some (f ())⟩ := by
      have := (by simpa [EnvOnce.init, EnvOnce.new] using he :
        (⟨some (f ())⟩ : EnvOnce T) = e)
      exact this.symm
    subst h2
    rfl

/-- C7 witness: the amended behavior at the concrete factory producing
7. -/
theorem c7_witness :
    (∃ msg, EnvOnce.init (fun _ => (7 : Int)) ⟨some 7⟩ = .panicked msg ∧
      msg = "Failed to initialize environment" ∧
      ¬ ("already initialized".data <:+: msg.data)) ∧
    EnvOnce.deref (⟨some 7⟩ : EnvOnce Int) = .ret 7 :=
  ⟨(c7_env_once_amended Int (fun _ => 7)).2.2.1 ⟨some 7⟩ rfl,
   (c7_env_once_amended Int (fun _ => 7)).2.2.2 ⟨some 7⟩ rfl⟩

/-- C8 counterexample: the first init on an empty container runs the
factory once (counter 0 to 1); a second init on the now initialized
container runs the factory a second time (counter 1 to 2) before failing,
so the factory is executed more than one time over a sequence of init
calls. -/
theorem c8_counterexample :
    EnvOnce.initCounted (mkThunk fun _ => (0 : Int)) EnvOnce.new 0 =
      (.ret ⟨some 0⟩, 1) ∧
    EnvOnce.initCounted (mkThunk fun _ => (0 : Int)) ⟨some 0⟩ 1 =
      (.panicked "Failed to initialize environment", 2) :=
  ⟨rfl, rfl⟩

/-- C8 amended: the cell is written at most once, since init on an
initialized container panics without storing, but the factory is
executed on every init call, including the failing second one, because it
runs before the store is attempted. -/
theorem c8_init_runs_factory_each_call (T : Type) (f : Unit → T)
    (e : EnvOnce T) (n : Nat) :
    (e.initCounted (mkThunk f) n).2 = n + 1 ∧
    (e.cell = none →
        e.initCounted (mkThunk f) n = (.ret ⟨some (f ())⟩, n + 1)) ∧
    (∀ v, e.cell = some v →
        e.initCounted (mkThunk f) n =
          (.panicked "Failed to initialize environment", n + 1)) := by
  refine ⟨?_, ?_, ?_⟩
  · cases h : e.cell <;> simp [EnvOnce.initCounted, mkThunk, h]
  · intro h
    simp [EnvOnce.initCounted, mkThunk, h]
  · intro v h
    simp [EnvOnce.initCounted, mkThunk, h]

/-- C8 witness: the amended behavior at a concrete factory, on the empty
container and on an already initialized one. -/
theorem c8_witness :
    EnvOnce.initCounted (mkThunk fun _ => (5 : Int)) EnvOnce.new 0 =
      (.ret ⟨some 5⟩, 1) ∧
    EnvOnce.initCounted (mkThunk fun _ => (5 : Int)) ⟨some 5⟩ 1 =
      (.panicked "Failed to initialize environment", 2) :=
  ⟨(c8_init_runs_factory_each_call Int (fun _ => 5) EnvOnce.new 0).2.1 rfl,
   (c8_init_runs_factory_each_call Int (fun _ => 5) ⟨some 5⟩ 1).2.2 5 rfl⟩

/-- C10: var_or_else runs its default thunk exactly once on every call,
success or failure, and leaks its result into the heap in both cases; on
success it still returns the reference to the parsed value, which
dereferences to that value, not to the default; on failure it returns the
reference to the leaked default. -/
theorem c10_var_or_else_always_runs_default (g : EnvGetter G)
    (parse : String → Except P T) (name : String) (f : Unit → T)
    (heap : List T) (n : Nat) :
    (g.var_or_else parse name (mkThunk f) heap n).2 = n + 1 ∧
    (∀ v, g.owned_var_try parse name = .ok v →
        (g.var_or_else parse name (mkThunk f) heap n).1 =
          (heap.length + 1, (heap ++ [f ()]) ++ [v]) ∧
        ((heap ++ [f ()]) ++ [v])[heap.length + 1]? = some v ∧
        f () ∈ (heap ++ [f ()]) ++ [v]) ∧
    (∀ e, g.owned_var_try parse name = .error e →
        (g.var_or_else parse name (mkThunk f) heap n).1 =
          (heap.length, heap ++ [f ()]) ∧
        f () ∈ heap ++ [f ()]) := by
  refine ⟨?_, ?_, ?_⟩
  · simp [EnvGetter.var_or_else, mkThunk, EnvGetter.leak]
  · intro v hv
    refine ⟨?_, ?_, by simp⟩
    · simp [EnvGetter.var_or_else, mkThunk, EnvGetter.leak, EnvGetter.var_or,
        EnvGetter.var_try, hv]
    · have hlen : (heap ++ [f ()]).length = heap.length + 1 := by simp
      rw [← hlen]
      exact List.getElem?_concat_length (heap ++ [f ()]) v
  · intro e he
    refine ⟨?_, by simp⟩
    simp [EnvGetter.var_or_else, mkThunk, EnvGetter.leak, EnvGetter.var_or,
      EnvGetter.var_try, he]

/-- C10 witness: on INT_OK the thunk producing 7 still runs once and 7 is
leaked, yet the returned reference dereferences to the parsed 42; on
MISSING the thunk runs once and its leaked value is returned. -/
theorem c10_witness :
    ((EnvGetter.new mockGetter).owned_var_try parseI32 "INT_OK" = .ok 42 ∧
      (EnvGetter.new mockGetter).var_or_else parseI32 "INT_OK"
        (mkThunk fun _ => 7) [] 0 = ((1, [7, 42]), 1) ∧
      ([(7 : Int), 42])[(1 : Nat)]? = some 42) ∧
    ((EnvGetter.new mockGetter).owned_var_try parseI32 "MISSING" =
        .error (.GetterError ()) ∧
      (EnvGetter.new mockGetter).var_or_else parseI32 "MISSING"
        (mkThunk fun _ => 7) [] 0 = ((0, [7]), 1)) := by
  constructor
  · refine ⟨by decide, ?_, by decide⟩
    have h := (c10_var_or_else_always_runs_default (EnvGetter.new mockGetter)
      parseI32 "INT_OK" (fun _ => 7) [] 0)
    have h1 := h.1
    have h2 := (h.2.1 42 (by decide)).1
    have : (EnvGetter.new mockGetter).var_or_else parseI32 "INT_OK"
        (mkThunk fun _ => 7) [] 0 =
        (((EnvGetter.new mockGetter).var_or_else parseI32 "INT_OK"
          (mkThunk fun _ => 7) [] 0).1,
         ((EnvGetter.new mockGetter).var_or_else parseI32 "INT_OK"
          (mkThunk fun _ => 7) [] 0).2) := rfl
    rw [this, h1, h2]
    rfl
  · refine ⟨by decide, ?_⟩
    have h := (c10_var_or_else_always_runs_default (EnvGetter.new mockGetter)
      parseI32 "MISSING" (fun _ => 7) [] 0)
    have h1 := h.1
    have h2 := (h.2.2 (.GetterError ()) (by decide)).1
    have : (EnvGetter.new mockGetter).var_or_else parseI32 "MISSING"
        (mkThunk fun _ => 7) [] 0 =
        (((EnvGetter.new mockGetter).var_or_else parseI32 "MISSING"
          (mkThunk fun _ => 7) [] 0).1,
         ((EnvGetter.new mockGetter).var_or_else parseI32 "MISSING"
          (mkThunk fun _ => 7) [] 0).2) := rfl
    rw [this, h1, h2]
    rfl

end Claims
